import Mathlib

/-
Verification development for the Visited-Links-Marker browser extension.

The definitions below are a shallow embedding of the JavaScript sources:
  * src/src/content-scripts/content-script.mjs  (content script + service worker)
  * src/src/utilities/storage-manager.mjs       (StorageManager, DEFAULT_SETTINGS)
  * the popup controller source (PopupController)

JavaScript objects with optional fields are embedded as Lean structures with
Option fields (a `none` field models an absent / undefined key); the sparse
`siteSettings` mapping is embedded as an association list keyed by hostname;
fallible asynchronous host-API calls (chrome.storage, chrome.tabs,
chrome.scripting) are embedded by passing their outcomes explicitly and
recording the operations the code performs as explicit traces.
-/

set_option maxRecDepth 4000

namespace VisitedLinksMarker

/-- Per-site override entry: the value type of the `siteSettings` mapping,
shape `{ enabled?: boolean, visitedColor?: string }`.  A `none` field models
an absent key (JavaScript `undefined`). -/
structure SiteEntry where
  enabled : Option Bool
  visitedColor : Option String
  deriving DecidableEq

/-- The persisted settings record (content-script.mjs lines 126-130 and
storage-manager.mjs lines 34-38).  `siteSettings := none` models a record in
which the `siteSettings` key is altogether missing (the service worker guards
for this with `?.`); `some m` models a present mapping, embedded as an
association list from hostname to `SiteEntry`. -/
structure Settings where
  visitedColor : String
  enabled : Bool
  siteSettings : Option (List (String × SiteEntry))
  deriving DecidableEq

/-- DEFAULT_SETTINGS from storage-manager.mjs lines 34-38 (identical object in
content-script.mjs lines 126-130): purple global color, globally enabled,
empty site-specific mapping. -/
def DEFAULT_SETTINGS : Settings :=
  { visitedColor := "#551a8b", enabled := true, siteSettings := some [] }

/-- The derived per-tab effective settings `{ visitedColor, enabled }`
returned by `getEffectiveSettings` (content-script.mjs lines 472-475). -/
structure EffectiveSettings where
  visitedColor : String
  enabled : Bool
  deriving DecidableEq

/-- JavaScript property lookup `m[site]` on the `siteSettings` object,
embedded as first-match association-list lookup. -/
def lookupSite : List (String × SiteEntry) → String → Option SiteEntry
  | [], _ => none
  | (k, v) :: rest, site => if k = site then some v else lookupSite rest site

/-- The optional-chained lookup `this.settings.siteSettings?.[currentSite]`:
the whole expression is `undefined` when `siteSettings` is missing. -/
def lookupEntry (s : Settings) (site : String) : Option SiteEntry :=
  match s.siteSettings with
  | none => none
  | some m => lookupSite m site

/-- Core of VisitedLinkService.getEffectiveSettings (content-script.mjs lines
462-475), as a pure function of the settings record and the site identifier
(the code first extracts `currentSite` as the hostname of the tab URL):
`siteSettings?.[site] || {}`, then `enabled !== false` for the site-enabled
bit, `visitedColor !== undefined ? site : global` for the color, and
`global.enabled && siteEnabled` for the effective enabled flag. -/
def getEffectiveSettings (s : Settings) (site : String) : EffectiveSettings :=
  let siteEntry := (lookupEntry s site).getD { enabled := none, visitedColor := none }
  let siteEnabled :=
    match siteEntry.enabled with
    | some false => false
    | _ => true
  let visitedColor :=
    match siteEntry.visitedColor with
    | some c => c
    | none => s.visitedColor
  { visitedColor := visitedColor, enabled := s.enabled && siteEnabled }

/-- JavaScript optional chaining `siteSettings?.[site]` in an explicit error
monad: `?.` short-circuits a missing mapping to `undefined` (here `.ok none`)
instead of raising the TypeError that a plain index `siteSettings[site]` on an
absent mapping would raise. -/
def optChainLookup (m : Option (List (String × SiteEntry))) (site : String) :
    Except String (Option SiteEntry) :=
  match m with
  | none => .ok none
  | some l => .ok (lookupSite l site)

/-- getEffectiveSettings with its JavaScript-level throw point made explicit:
the only field access that could throw on the inputs in question is the
indexing of `siteSettings`, and the source guards it with `?.` followed by
`|| {}`, after which both field reads are on a genuine object. -/
def getEffectiveSettingsE (s : Settings) (site : String) :
    Except String EffectiveSettings :=
  match optChainLookup s.siteSettings site with
  | .error e => .error e
  | .ok entryOpt =>
    let siteEntry := entryOpt.getD { enabled := none, visitedColor := none }
    let siteEnabled :=
      match siteEntry.enabled with
      | some false => false
      | _ => true
    let visitedColor :=
      match siteEntry.visitedColor with
      | some c => c
      | none => s.visitedColor
    .ok { visitedColor := visitedColor, enabled := s.enabled && siteEnabled }

/-- Spec-side formula for the effective enabled flag, written from the spec's
words: the logical AND of global `enabled` and (site override `enabled` if
present, else true). -/
def specResolveEnabled (s : Settings) (site : String) : Bool :=
  s.enabled &&
    (match lookupEntry s site with
     | some e =>
       match e.enabled with
       | some b => b
       | none => true
     | none => true)

/-- Spec-side formula for the effective color, written from the spec's words:
the site override `visitedColor` if present, else the global color. -/
def specResolveVisitedColor (s : Settings) (site : String) : String :=
  match lookupEntry s site with
  | some e =>
    match e.visitedColor with
    | some c => c
    | none => s.visitedColor
  | none => s.visitedColor

/-- Remainder of a character list after the first occurrence of `needle`;
`none` when `needle` does not occur.  `(afterFirst n h).isSome` is JavaScript
`h.includes(n)`, and the remainder itself is used below to read a CSS custom
property's declared value out of a generated style-sheet string. -/
def afterFirst (needle : List Char) : List Char → Option (List Char)
  | [] => none
  | c :: rest =>
    if needle.isPrefixOf (c :: rest) then some ((c :: rest).drop needle.length)
    else afterFirst needle rest

/-- The quota test `error.message.includes('quota')` of
content-script.mjs line 502 (case-sensitive substring search). -/
def includesQuota (msg : String) : Bool :=
  (afterFirst "quota".data msg.data).isSome

/-- Outcome of one fallible chrome.storage call: it either resolves, or
rejects with an error whose message is the given string. -/
inductive JsOutcome where
  | ok : JsOutcome
  | err : String → JsOutcome
  deriving DecidableEq

/-- A storage operation performed against chrome.storage.sync, recorded in
the traces produced by the persistence models below. -/
inductive StorageOp where
  | set : StorageOp
  | clear : StorageOp
  deriving DecidableEq

/-- VisitedLinkService.setSettings (content-script.mjs lines 495-516).
`o1` is the outcome of the initial `chrome.storage.sync.set`, `oClear` of the
`clear` in the quota-recovery branch, `o2` of the retry `set`; the function
returns the boolean result together with the trace of storage operations the
code actually performs.  A non-quota failure returns false at once; a quota
failure (message containing 'quota') enters the recovery branch, whose own
failure at either step is caught and falls through to `return false`. -/
def svcSetSettings (o1 oClear o2 : JsOutcome) : Bool × List StorageOp :=
  match o1 with
  | .ok => (true, [.set])
  | .err m =>
    if includesQuota m then
      match oClear with
      | .ok =>
        match o2 with
        | .ok => (true, [.set, .clear, .set])
        | .err _ => (false, [.set, .clear, .set])
      | .err _ => (false, [.set, .clear])
    else (false, [.set])

/-- StorageManager.setSettings (storage-manager.mjs lines 13-20): one
`chrome.storage.sync.set`, every failure converted to `false`, no recovery of
any kind. -/
def storageManagerSetSettings (o : JsOutcome) : Bool × List StorageOp :=
  match o with
  | .ok => (true, [.set])
  | .err _ => (false, [.set])

/-- StorageManager.getSettings (storage-manager.mjs lines 4-11); the service
worker's getSettings (content-script.mjs lines 486-493) is the same code.
`read` is the outcome of `chrome.storage.sync.get(SETTINGS_KEY)`: a rejection,
or resolution with the stored record (`none` when the key is absent, in which
case `result[SETTINGS_KEY]` is undefined and `|| DEFAULT_SETTINGS` yields the
defaults). -/
def getSettings (read : Except String (Option Settings)) : Settings :=
  match read with
  | .error _ => DEFAULT_SETTINGS
  | .ok none => DEFAULT_SETTINGS
  | .ok (some s) => s

/-- A partial settings record, as passed to `updateSettings`: each field is
present (`some`) or absent.  JavaScript merges it with object spread
`{ ...this.settings, ...newSettings }`, so a present field overrides and an
absent one keeps the current value. -/
structure PartialSettings where
  visitedColor : Option String
  enabled : Option Bool
  siteSettings : Option (List (String × SiteEntry))
  deriving DecidableEq

/-- The spread merge `{ ...this.settings, ...newSettings }` of
content-script.mjs line 521. -/
def mergeSettings (cur : Settings) (upd : PartialSettings) : Settings :=
  { visitedColor := upd.visitedColor.getD cur.visitedColor,
    enabled := upd.enabled.getD cur.enabled,
    siteSettings :=
      match upd.siteSettings with
      | some m => some m
      | none => cur.siteSettings }

/-- VisitedLinkService.updateSettings (content-script.mjs lines 518-541):
merge into memory, persist via setSettings with the persistence result
discarded (line 524 awaits it without using it), notify tabs and re-inject
(both swallow their own errors, modelled as no-ops), `return true`.  The
triple returned is (return value, new in-memory settings, the discarded
persistence result); the return value is `true` on every input because no
step of the body can throw. -/
def svcUpdateSettings (o1 oClear o2 : JsOutcome) (cur : Settings)
    (upd : PartialSettings) : Bool × Settings × Bool :=
  let merged := mergeSettings cur upd
  let persisted := svcSetSettings o1 oClear o2
  (true, merged, persisted.1)

/-- Response shape `{ success: boolean, error? }` sent back by the message
handler. -/
structure MessageResponse where
  success : Bool
  error : Option String
  deriving DecidableEq

/-- The `updateSettings` arm of VisitedLinkService.handleMessage
(content-script.mjs lines 236-239): it awaits `this.updateSettings` ignoring
its boolean result and responds `{ success: true }`; the catch arm (lines
253-255) that would respond `{ success: false, error }` is reached only when
the body throws, which `updateSettings` never does.  Returns the response
together with the new in-memory settings and the discarded persistence
result. -/
def handleUpdateSettingsMessage (o1 oClear o2 : JsOutcome) (cur : Settings)
    (upd : PartialSettings) : MessageResponse × Settings × Bool :=
  let r := svcUpdateSettings o1 oClear o2 cur upd
  ({ success := true, error := none }, r.2.1, r.2.2)

/-- Character class `[A-Fa-f0-9]` of the popup's hex-color regex. -/
def isAsciiHexDigit (c : Char) : Bool :=
  ('0' ≤ c && c ≤ '9') || ('a' ≤ c && c ≤ 'f') || ('A' ≤ c && c ≤ 'F')

/-- PopupController.isValidHexColor: the anchored regex test
`/^#([A-Fa-f0-9]{6}|[A-Fa-f0-9]{3})$/.test(hex)` — a leading '#' followed by
exactly 6 or exactly 3 hex digits and nothing else. -/
def isValidHexColor (hex : String) : Bool :=
  match hex.data with
  | c :: rest => c == '#' && (rest.length == 6 || rest.length == 3) && rest.all isAsciiHexDigit
  | [] => false

/-- Update of the first entry with the given key in the `siteSettings`
association list (JavaScript object keys are unique, so at most one entry
carries the key). -/
def updateSiteList (m : List (String × SiteEntry)) (site : String)
    (f : SiteEntry → SiteEntry) : List (String × SiteEntry) :=
  match m with
  | [] => []
  | (k, v) :: rest =>
    if k = site then (k, f v) :: rest else (k, v) :: updateSiteList rest site f

/-- PopupController.updateSiteSetting for the key 'visitedColor': creates the
`siteSettings` mapping and the site's entry when absent, then assigns
`siteSettings[site].visitedColor = color`. -/
def updateSiteVisitedColor (s : Settings) (site : String) (color : String) : Settings :=
  let m := s.siteSettings.getD []
  match lookupSite m site with
  | some _ =>
    { s with siteSettings := some (updateSiteList m site (fun e => { e with visitedColor := some color })) }
  | none =>
    { s with siteSettings := some (m ++ [(site, { enabled := none, visitedColor := some color })]) }

/-- PopupController.removeSiteSetting for the key 'visitedColor': when the
`siteSettings` mapping and the site's entry both exist, `delete
siteSettings[site].visitedColor` (the entry itself and its other field stay);
otherwise no change. -/
def removeSiteVisitedColor (s : Settings) (site : String) : Settings :=
  match s.siteSettings with
  | none => s
  | some m =>
    match lookupSite m site with
    | none => s
    | some _ =>
      { s with siteSettings := some (updateSiteList m site (fun e => { e with visitedColor := none })) }

/-- The 'use custom color for this site' toggle handler
(PopupController.setupSiteEventListeners): checking it seeds the site's
custom color with the current global color; unchecking it removes the
site's visitedColor key via removeSiteSetting. -/
def onUseCustomColorToggle (s : Settings) (site : String) (checked : Bool) : Settings :=
  if checked then updateSiteVisitedColor s site s.visitedColor
  else removeSiteVisitedColor s site

/-- The global hex text-field input handler
(PopupController.setupGlobalEventListeners): the typed value is applied to
the global visitedColor only when isValidHexColor accepts it. -/
def onGlobalHexInput (s : Settings) (v : String) : Settings :=
  if isValidHexColor v then { s with visitedColor := v } else s

/-- The site hex text-field input handler
(PopupController.setupSiteEventListeners): the typed value is applied to the
site's visitedColor only when isValidHexColor accepts it. -/
def onSiteHexInput (s : Settings) (site : String) (v : String) : Settings :=
  if isValidHexColor v then updateSiteVisitedColor s site v else s

/-- Fixed part of the generateCSS template that precedes the
`--visited-link-color: ` declaration (content-script.mjs lines 387-390). -/
def generateCSSHead : String :=
  "\n        /* Visited Links Marker CSS - Using Browser\x27s Native :visited State */\n        :root \x7b\n          "

/-- Fixed part of the generateCSS template that follows the interpolated
color value and its terminating semicolon (content-script.mjs lines
391-451). -/
def generateCSSTail : String :=
  "\n        \x7d\n\n        /* High specificity CSS rules to override any website styles */\n        html body a:visited,\n        html body a:visited *,\n        html body [role=\"link\"]:visited,\n        html body [role=\"link\"]:visited * \x7b\n          color: var(--visited-link-color) !important;\n        \x7d\n\n        /* Additional high-specificity rules for stubborn websites */\n        html body div a:visited,\n        html body div a:visited *,\n        html body section a:visited,\n        html body section a:visited *,\n        html body article a:visited,\n        html body article a:visited *,\n        html body main a:visited,\n        html body main a:visited *,\n        html body nav a:visited,\n        html body nav a:visited *,\n        html body header a:visited,\n        html body header a:visited *,\n        html body footer a:visited,\n        html body footer a:visited * \x7b\n          color: var(--visited-link-color) !important;\n        \x7d\n\n        /* Handle common class-based links */\n        html body .link:visited,\n        html body .link:visited *,\n        html body .url:visited,\n        html body .url:visited *,\n        html body .external:visited,\n        html body .external:visited * \x7b\n          color: var(--visited-link-color) !important;\n        \x7d\n\n        /* Handle deeply nested elements */\n        html body a:visited span,\n        html body a:visited div,\n        html body a:visited p,\n        html body a:visited h1,\n        html body a:visited h2,\n        html body a:visited h3,\n        html body a:visited h4,\n        html body a:visited h5,\n        html body a:visited h6,\n        html body a:visited strong,\n        html body a:visited em,\n        html body a:visited b,\n        html body a:visited i,\n        html body a:visited u \x7b\n          color: var(--visited-link-color) !important;\n        \x7d\n\n        /* Override text decoration while preserving functionality */\n        html body a:visited \x7b\n          color: var(--visited-link-color) !important;\n        \x7d\n      "

/-- VisitedLinkService.generateCSS (content-script.mjs lines 386-452): the
template literal with `${color || 'unset'}` interpolated into the custom
property declaration (a falsy — empty — color becomes 'unset'). -/
def generateCSS (color : String) : String :=
  generateCSSHead ++ "--visited-link-color: " ++ (if color = "" then "unset" else color) ++ ";" ++ generateCSSTail

/-- The reset style sheet that VisitedLinkService.removeCSS inserts
(content-script.mjs lines 365-375): it sets `--visited-link-color` to
`unset` and forces visited-link color to `unset`. -/
def resetCSS : String :=
  "\n          :root \x7b\n            --visited-link-color: unset;\n          \x7d\n          html body a:visited,\n          html body a:visited *,\n          html body [role=\"link\"]:visited,\n          html body [role=\"link\"]:visited * \x7b\n            color: unset !important;\n          \x7d\n        "

/-- The characters of the CSS custom-property declaration prefix
`--visited-link-color: ` (with its trailing space), the search key of the
property extractor. -/
def cssNeedle : List Char := "--visited-link-color: ".data

/-- Value declared for the `--visited-link-color` custom property in a style
sheet string: the text between the first `--visited-link-color: ` and the
next semicolon (`none` when the sheet declares no such property). -/
def cssPropValue (css : String) : Option String :=
  match afterFirst cssNeedle css.data with
  | none => none
  | some rest => some (String.mk (rest.takeWhile (fun ch => ch != ';')))

/-- One `chrome.scripting.insertCSS` call on a tab, which adds a style sheet
after those already injected.  All sheets the extension injects share
selectors of equal specificity with `!important` declarations, so the CSS
cascade resolves conflicts in favor of the most recently inserted sheet. -/
def insertCSSOp (stack : List String) (css : String) : List String :=
  stack ++ [css]

/-- The value the cascade gives `--visited-link-color` on a tab: the value
declared by the most recently inserted sheet that declares the property.
A sheet is "active" for the property exactly when it is this sheet. -/
def activeCSSPropValue (stack : List String) : Option String :=
  List.findSome? cssPropValue stack.reverse

/-- ASCII letter test for the first character of a URL scheme. -/
def isAsciiAlpha (c : Char) : Bool :=
  ('a' ≤ c && c ≤ 'z') || ('A' ≤ c && c ≤ 'Z')

/-- Characters allowed in a URL scheme after the first. -/
def isSchemeChar (c : Char) : Bool :=
  isAsciiAlpha c || ('0' ≤ c && c ≤ '9') || c == '+' || c == '-' || c == '.'

/-- Protocol extraction of `new URL(url).protocol`, modelling the slice of
WHATWG URL parsing the eligibility check depends on: parsing succeeds exactly
when the string starts with a valid scheme (an ASCII letter followed by
letters, digits, '+', '-' or '.') terminated by ':'; the protocol is the
lowercased scheme with the trailing colon, and `none` models `new URL`
throwing on an unparsable string. -/
def urlProtocol (url : String) : Option String :=
  match url.data.takeWhile (fun ch => ch != ':') with
  | [] => none
  | c :: rest =>
    if (c :: rest).length < url.data.length && isAsciiAlpha c && (c :: rest).all isSchemeChar then
      some (String.mk (((c :: rest).map Char.toLower) ++ [':']))
    else none

/-- The protocols VisitedLinkService.shouldInjectOnSite rejects
(content-script.mjs lines 307-313): browser UI pages (chrome:, edge:,
about:), extension pages (chrome-extension:, moz-extension:), embedded data
(data:) and local files (file:). -/
def privilegedProtocols : List String :=
  ["chrome:", "chrome-extension:", "moz-extension:", "edge:", "about:", "data:", "file:"]

/-- VisitedLinkService.shouldInjectOnSite (content-script.mjs lines 302-322):
false when the URL fails to parse (the catch branch) or its protocol is one
of the privileged schemes; true for every other website. -/
def shouldInjectOnSite (url : String) : Bool :=
  match urlProtocol url with
  | none => false
  | some p => !(privilegedProtocols.contains p)

/-- Hostname extraction of `new URL(url).hostname`, modelling the slice of
WHATWG URL parsing getEffectiveSettings depends on: for a URL with an
authority (`//` after the scheme), the host up to the next delimiter;
otherwise the empty hostname of an opaque-path URL. -/
def urlHostname (url : String) : Option String :=
  match urlProtocol url with
  | none => none
  | some p =>
    let rest := url.data.drop p.length
    if rest.take 2 = ['/', '/'] then
      some (String.mk ((rest.drop 2).takeWhile (fun ch => ch != '/' && ch != ':' && ch != '?' && ch != '#')))
    else some ""

/-- The slice of a chrome tab object the service worker reads: its URL
(`none` models a tab without a url property). -/
structure TabInfo where
  url : Option String
  deriving DecidableEq

/-- VisitedLinkService.getEffectiveSettings as called with a tab
(content-script.mjs lines 454-484): fetch the tab and parse its URL; any
failure there (missing tab, missing url, unparsable url) is caught and falls
back to the global settings (lines 478-483); otherwise resolve for the URL's
hostname. -/
def getEffectiveSettingsOfTab (s : Settings) (tab : Option TabInfo) : EffectiveSettings :=
  match tab with
  | none => { visitedColor := s.visitedColor, enabled := s.enabled }
  | some t =>
    match t.url with
    | none => { visitedColor := s.visitedColor, enabled := s.enabled }
    | some u =>
      match urlHostname u with
      | none => { visitedColor := s.visitedColor, enabled := s.enabled }
      | some h => getEffectiveSettings s h

/-- VisitedLinkService.injectCSS (content-script.mjs lines 324-360), as the
list of style sheets it inserts on the tab: nothing when the tab cannot be
fetched, has no URL, or its URL is ineligible; the reset sheet (via
removeCSS) when the effective settings are disabled; otherwise the sheet
generated for the effective color. -/
def injectCSS (s : Settings) (tab : Option TabInfo) : List String :=
  match tab with
  | none => []
  | some t =>
    match t.url with
    | none => []
    | some u =>
      if !(shouldInjectOnSite u) then []
      else
        let eff := getEffectiveSettingsOfTab s (some t)
        if !eff.enabled then [resetCSS] else [generateCSS eff.visitedColor]

theorem lookupSite_updateSiteList_self (m : List (String × SiteEntry))
    (site : String) (f : SiteEntry → SiteEntry) (e : SiteEntry)
    (h : lookupSite m site = some e) :
    lookupSite (updateSiteList m site f) site = some (f e) := by
  induction m with
  | nil => simp [lookupSite] at h
  | cons kv rest ih =>
    obtain ⟨k, v⟩ := kv
    by_cases hk : k = site
    · subst hk
      rw [lookupSite, if_pos rfl] at h
      rw [updateSiteList, if_pos rfl, lookupSite, if_pos rfl]
      rw [Option.some_inj] at h
      rw [h]
    · rw [lookupSite, if_neg hk] at h
      rw [updateSiteList, if_neg hk, lookupSite, if_neg hk]
      exact ih h

theorem getEffectiveSettings_eq_spec (s : Settings) (site : String) :
    getEffectiveSettings s site =
      { visitedColor := specResolveVisitedColor s site,
        enabled := specResolveEnabled s site } := by
  unfold getEffectiveSettings specResolveVisitedColor specResolveEnabled
  cases h : lookupEntry s site with
  | none => simp [h]
  | some e =>
    cases he : e.enabled with
    | none => cases e.visitedColor <;> simp [h, he]
    | some b => cases b <;> cases e.visitedColor <;> simp [h, he]

theorem isPrefixOf_append_of_le (needle X S : List Char)
    (h : needle.length ≤ X.length) :
    needle.isPrefixOf (X ++ S) = needle.isPrefixOf X := by
  rw [Bool.eq_iff_iff, List.isPrefixOf_iff_prefix, List.isPrefixOf_iff_prefix]
  constructor
  · intro hp
    rw [List.prefix_iff_eq_take] at hp ⊢
    rw [List.take_append_of_le_length h] at hp
    exact hp
  · intro hp
    exact hp.trans (List.prefix_append X S)

theorem afterFirst_first_occurrence (needle : List Char) (hn : needle ≠ []) :
    ∀ (P S : List Char),
      (∀ i, i < P.length → needle.isPrefixOf ((P ++ needle).drop i) = false) →
      afterFirst needle (P ++ (needle ++ S)) = some S := by
  intro P
  induction P with
  | nil =>
    intro S _
    obtain ⟨n0, nt, rfl⟩ : ∃ n0 nt, needle = n0 :: nt := by
      cases needle with
      | nil => exact absurd rfl hn
      | cons a b => exact ⟨a, b, rfl⟩
    rw [List.nil_append, List.cons_append, afterFirst]
    have hpre : (n0 :: nt).isPrefixOf (n0 :: (nt ++ S)) = true := by
      rw [List.isPrefixOf_iff_prefix, ← List.cons_append]
      exact List.prefix_append _ _
    rw [if_pos hpre, ← List.cons_append, List.drop_left]
  | cons a P' ih =>
    intro S h
    have h0 := h 0 (by simp)
    rw [List.drop_zero] at h0
    have hlen : needle.length ≤ ((a :: P') ++ needle).length := by
      simp only [List.length_append, List.length_cons]
      omega
    have hfalse : needle.isPrefixOf ((a :: P') ++ needle ++ S) = false := by
      rw [isPrefixOf_append_of_le needle ((a :: P') ++ needle) S hlen, h0]
    have heq : (a :: P') ++ needle ++ S = a :: (P' ++ (needle ++ S)) := by simp
    rw [heq] at hfalse
    rw [List.cons_append, afterFirst, if_neg (by simp [hfalse])]
    apply ih
    intro i hi
    have hh := h (i + 1) (by simp only [List.length_cons]; omega)
    rwa [List.cons_append, List.drop_succ_cons] at hh

theorem takeWhile_append_cons (p : Char → Bool) (A : List Char) (b : Char)
    (B : List Char) (hA : ∀ a ∈ A, p a = true) (hb : p b = false) :
    (A ++ b :: B).takeWhile p = A := by
  induction A with
  | nil => simp [List.takeWhile_cons, hb]
  | cons a A' ih =>
    have ha : p a = true := hA a (by simp)
    have ih' := ih (fun x hx => hA x (List.mem_cons_of_mem a hx))
    simp [List.takeWhile_cons, ha, ih']

theorem cssPropValue_generateCSS (c : String) (hc : c ≠ "")
    (hsc : ∀ ch ∈ c.data, ch ≠ ';') :
    cssPropValue (generateCSS c) = some c := by
  have hval : (if c = "" then "unset" else c) = c := if_neg hc
  have hdata : (generateCSS c).data =
      generateCSSHead.data ++ (cssNeedle ++ (c.data ++ (';' :: generateCSSTail.data))) := by
    unfold generateCSS cssNeedle
    rw [hval]
    simp only [String.data_append, List.append_assoc]
    rfl
  unfold cssPropValue
  rw [hdata]
  rw [afterFirst_first_occurrence cssNeedle (by decide) generateCSSHead.data
    (c.data ++ (';' :: generateCSSTail.data)) (by decide)]
  show some { data := List.takeWhile (fun ch => ch != ';') (c.data ++ ';' :: generateCSSTail.data) } = some c
  rw [takeWhile_append_cons _ c.data ';' generateCSSTail.data
    (fun a ha => by simpa using hsc a ha) (by decide)]

/-- Claim C1: for every settings record and site identifier, the effective
settings resolver returns `enabled` equal to the logical AND of the global
enabled flag and the site override's enabled flag when that override is
present (true when absent), and `visitedColor` equal to the site override's
visitedColor when present, else the global visitedColor; in particular a site
entry with `enabled === false` yields effective enabled false regardless of
global enabled. -/
theorem c1_resolver_matches_derivation_rules (s : Settings) (site : String) :
    (getEffectiveSettings s site).enabled = specResolveEnabled s site ∧
    (getEffectiveSettings s site).visitedColor = specResolveVisitedColor s site ∧
    (∀ e : SiteEntry, lookupEntry s site = some e → e.enabled = some false →
      (getEffectiveSettings s site).enabled = false) := by
  refine ⟨?_, ?_, ?_⟩
  · rw [getEffectiveSettings_eq_spec]
  · rw [getEffectiveSettings_eq_spec]
  · intro e he hfalse
    unfold getEffectiveSettings
    simp [he, hfalse]

theorem c1_witness :
    lookupEntry
        { visitedColor := "#551a8b", enabled := true,
          siteSettings := some [("example.com", { enabled := some false, visitedColor := none })] }
        "example.com" =
      some { enabled := some false, visitedColor := none } ∧
    (getEffectiveSettings
        { visitedColor := "#551a8b", enabled := true,
          siteSettings := some [("example.com", { enabled := some false, visitedColor := none })] }
        "example.com").enabled = false := by
  refine ⟨by decide, ?_⟩
  exact (c1_resolver_matches_derivation_rules
    { visitedColor := "#551a8b", enabled := true,
      siteSettings := some [("example.com", { enabled := some false, visitedColor := none })] }
    "example.com").2.2 { enabled := some false, visitedColor := none } (by decide) rfl

/-- Claim C5: for every input settings record the effective settings resolver
never throws: a missing siteSettings mapping, a missing entry for the queried
site, or a site entry missing its enabled or visitedColor field are each
treated as "use global" for that field, and the resolver still returns a
well-formed pair.  The first conjunct shows the error-monad embedding of the
resolver (its only JavaScript throw point made explicit) always returns
`.ok` of the pure resolver's value. -/
theorem c5_resolver_total_and_defaults_to_global (s : Settings) (site : String) :
    getEffectiveSettingsE s site = .ok (getEffectiveSettings s site) ∧
    (s.siteSettings = none →
      getEffectiveSettings s site =
        { visitedColor := s.visitedColor, enabled := s.enabled }) ∧
    (∀ m, s.siteSettings = some m → lookupSite m site = none →
      getEffectiveSettings s site =
        { visitedColor := s.visitedColor, enabled := s.enabled }) ∧
    (∀ e : SiteEntry, lookupEntry s site = some e → e.enabled = none →
      (getEffectiveSettings s site).enabled = s.enabled) ∧
    (∀ e : SiteEntry, lookupEntry s site = some e → e.visitedColor = none →
      (getEffectiveSettings s site).visitedColor = s.visitedColor) := by
  refine ⟨?_, ?_, ?_, ?_, ?_⟩
  · unfold getEffectiveSettingsE getEffectiveSettings optChainLookup lookupEntry
    cases s.siteSettings <;> simp
  · intro h
    unfold getEffectiveSettings lookupEntry
    simp [h]
  · intro m hm hl
    unfold getEffectiveSettings lookupEntry
    simp [hm, hl]
  · intro e he hen
    unfold getEffectiveSettings
    simp [he, hen]
  · intro e he hvc
    unfold getEffectiveSettings
    simp [he, hvc]

theorem c5_witness :
    getEffectiveSettings
        { visitedColor := "#123456", enabled := true, siteSettings := none }
        "example.com" =
      { visitedColor := "#123456", enabled := true } :=
  (c5_resolver_total_and_defaults_to_global
    { visitedColor := "#123456", enabled := true, siteSettings := none }
    "example.com").2.1 rfl

/-- Claim C10: for every two settings records that agree on the global enabled
flag, the global visitedColor, and the siteSettings entry for the queried site
(both present-and-equal or both absent), the effective settings resolver
returns identical results for that site: entries for any other site never
influence the resolved effective settings. -/
theorem c10_resolver_noninterference (s₁ s₂ : Settings) (site : String)
    (hen : s₁.enabled = s₂.enabled) (hvc : s₁.visitedColor = s₂.visitedColor)
    (hentry : lookupEntry s₁ site = lookupEntry s₂ site) :
    getEffectiveSettings s₁ site = getEffectiveSettings s₂ site := by
  unfold getEffectiveSettings
  rw [hen, hvc, hentry]

theorem c10_witness :
    getEffectiveSettings
        { visitedColor := "#551a8b", enabled := true,
          siteSettings := some [("other.org", { enabled := some false, visitedColor := some "#000000" })] }
        "example.com" =
      getEffectiveSettings
        { visitedColor := "#551a8b", enabled := true, siteSettings := some [] }
        "example.com" :=
  c10_resolver_noninterference
    { visitedColor := "#551a8b", enabled := true,
      siteSettings := some [("other.org", { enabled := some false, visitedColor := some "#000000" })] }
    { visitedColor := "#551a8b", enabled := true, siteSettings := some [] }
    "example.com" rfl rfl (by decide)

/-- Claim C3 counterexample: the claim says every settings write that fails
with a quota-exceeded error performs a clear-then-retry before returning
false, but StorageManager.setSettings (storage-manager.mjs lines 13-20) —
the write path used by the popup — returns false on a quota-exceeded
rejection having performed the single failed set and no clear and no retry. -/
theorem c3_counterexample_storage_manager_no_retry :
    includesQuota "QUOTA_BYTES quota exceeded" = true ∧
    storageManagerSetSettings (.err "QUOTA_BYTES quota exceeded") =
      (false, [StorageOp.set]) ∧
    StorageOp.clear ∉ (storageManagerSetSettings (.err "QUOTA_BYTES quota exceeded")).2 := by
  refine ⟨by decide, by decide, by decide⟩

/-- Claim C3 as amended: the service worker's setSettings performs exactly one
clear and one retry set on a quota-exceeded write failure (the retry is
skipped when the clear itself fails), succeeding only when both recovery steps
succeed; its non-quota failures return false after the single set with no
recovery; StorageManager.setSettings performs no recovery for any failure,
quota included, converting every outcome to a boolean after its single set.
Neither propagates an exception (both are total functions into results). -/
theorem c3_amended_quota_retry_service_only :
    (∀ (m : String) (oClear o2 : JsOutcome), includesQuota m = true →
      (svcSetSettings (.err m) oClear o2).2 =
        [StorageOp.set, StorageOp.clear] ++
          (match oClear with | .ok => [StorageOp.set] | .err _ => []) ∧
      (svcSetSettings (.err m) oClear o2).2.count StorageOp.clear = 1 ∧
      ((svcSetSettings (.err m) oClear o2).1 = true ↔ oClear = .ok ∧ o2 = .ok)) ∧
    (∀ (m : String) (oClear o2 : JsOutcome), includesQuota m = false →
      svcSetSettings (.err m) oClear o2 = (false, [StorageOp.set])) ∧
    (∀ oClear o2 : JsOutcome, svcSetSettings .ok oClear o2 = (true, [StorageOp.set])) ∧
    (∀ o : JsOutcome, storageManagerSetSettings o =
      ((match o with | .ok => true | .err _ => false), [StorageOp.set])) := by
  refine ⟨?_, ?_, ?_, ?_⟩
  · intro m oClear o2 hq
    cases oClear with
    | ok => cases o2 <;> simp [svcSetSettings, hq, List.count]
    | err m2 => simp [svcSetSettings, hq, List.count]
  · intro m oClear o2 hq
    simp [svcSetSettings, hq]
  · intro oClear o2
    rfl
  · intro o
    cases o <;> rfl

theorem c3_witness :
    (svcSetSettings (.err "QUOTA_BYTES quota exceeded") .ok (.err "still over quota")).2.count
        StorageOp.clear = 1 :=
  ((c3_amended_quota_retry_service_only.1 "QUOTA_BYTES quota exceeded" .ok
    (.err "still over quota")) (by decide)).2.1

/-- Claim C6 counterexample: with the initial storage set rejecting with a
non-quota error, persistence fails (the discarded setSettings result is
false) yet the handler's response is `{ success: true }`, refuting "returns
success true only when persistence succeeded and false (with an error)
otherwise". -/
theorem c6_counterexample_success_despite_failed_persist :
    (handleUpdateSettingsMessage (.err "disconnected") .ok .ok DEFAULT_SETTINGS
        { visitedColor := some "#123456", enabled := none, siteSettings := none }).1.success
      = true ∧
    (handleUpdateSettingsMessage (.err "disconnected") .ok .ok DEFAULT_SETTINGS
        { visitedColor := some "#123456", enabled := none, siteSettings := none }).2.2
      = false := by
  refine ⟨rfl, by decide⟩

/-- Claim C6 as amended: the updateSettings handler merges the partial record
into the in-memory copy and attempts persistence, but it ignores the
persistence result and always responds `{ success: true }` with no error;
success false with an error would be sent only if the handler body threw,
which it never does. -/
theorem c6_amended_handler_always_reports_success
    (o1 oClear o2 : JsOutcome) (cur : Settings) (upd : PartialSettings) :
    (handleUpdateSettingsMessage o1 oClear o2 cur upd).1 =
      { success := true, error := none } ∧
    (handleUpdateSettingsMessage o1 oClear o2 cur upd).2.1 = mergeSettings cur upd := by
  exact ⟨rfl, rfl⟩

/-- Claim C7: whenever the persistence layer holds no settings record or the
read fails, getSettings returns the default record
`{enabled: true, visitedColor: '#551a8b', siteSettings: {}}`, so on a fresh
install (no stored record) getSettings yields exactly those defaults. -/
theorem c7_get_settings_defaults :
    (∀ e : String, getSettings (.error e) = DEFAULT_SETTINGS) ∧
    getSettings (.ok none) = DEFAULT_SETTINGS ∧
    DEFAULT_SETTINGS =
      { visitedColor := "#551a8b", enabled := true, siteSettings := some [] } := by
  exact ⟨fun _ => rfl, rfl, rfl⟩

/-- Claim C8: for every site with a custom color override, turning the "use
custom color for this site" toggle off deletes the visitedColor key from that
site's entry — the entry survives with its enabled field untouched and no
explicit "use global" marker is written — so the site's effective color
afterwards equals the global visitedColor. -/
theorem c8_custom_color_toggle_off_reverts_to_global (s : Settings) (site : String)
    (m : List (String × SiteEntry)) (e : SiteEntry)
    (hm : s.siteSettings = some m) (he : lookupSite m site = some e) :
    lookupEntry (onUseCustomColorToggle s site false) site =
      some { enabled := e.enabled, visitedColor := none } ∧
    (onUseCustomColorToggle s site false).visitedColor = s.visitedColor ∧
    (getEffectiveSettings (onUseCustomColorToggle s site false) site).visitedColor =
      s.visitedColor := by
  have hs' : onUseCustomColorToggle s site false =
      { s with siteSettings := some (updateSiteList m site (fun e => { e with visitedColor := none })) } := by
    simp [onUseCustomColorToggle, removeSiteVisitedColor, hm, he]
  have hlook : lookupEntry (onUseCustomColorToggle s site false) site =
      some { enabled := e.enabled, visitedColor := none } := by
    rw [hs']
    unfold lookupEntry
    exact lookupSite_updateSiteList_self m site _ e he
  refine ⟨hlook, by rw [hs'], ?_⟩
  simp only [getEffectiveSettings, hlook, Option.getD_some]
  rw [hs']

theorem c8_witness :
    lookupEntry
        (onUseCustomColorToggle
          { visitedColor := "#551a8b", enabled := true,
            siteSettings := some [("example.com", { enabled := none, visitedColor := some "#abcdef" })] }
          "example.com" false)
        "example.com" = some { enabled := none, visitedColor := none } ∧
    (getEffectiveSettings
        (onUseCustomColorToggle
          { visitedColor := "#551a8b", enabled := true,
            siteSettings := some [("example.com", { enabled := none, visitedColor := some "#abcdef" })] }
          "example.com" false)
        "example.com").visitedColor = "#551a8b" := by
  have h := c8_custom_color_toggle_off_reverts_to_global
    { visitedColor := "#551a8b", enabled := true,
      siteSettings := some [("example.com", { enabled := none, visitedColor := some "#abcdef" })] }
    "example.com" [("example.com", { enabled := none, visitedColor := some "#abcdef" })]
    { enabled := none, visitedColor := some "#abcdef" } rfl (by decide)
  exact ⟨h.1, h.2.2⟩

/-- Claim C9: the hex-color validator accepts exactly the strings consisting
of '#' followed by 3 or 6 hexadecimal digits — it accepts '#fff', '#ffffff',
'#A1B2C3' and rejects 'fff', '#ff', '#gggggg' and the empty string — and a
value it rejects is never written to settings by the hex text-field
handlers. -/
theorem c9_hex_validator_exact_and_guards_writes :
    (∀ v : String, isValidHexColor v = true ↔
      ∃ rest : List Char, v.data = '#' :: rest ∧
        (rest.length = 6 ∨ rest.length = 3) ∧ ∀ c ∈ rest, isAsciiHexDigit c = true) ∧
    (isValidHexColor "#fff" = true ∧ isValidHexColor "#ffffff" = true ∧
      isValidHexColor "#A1B2C3" = true ∧ isValidHexColor "fff" = false ∧
      isValidHexColor "#ff" = false ∧ isValidHexColor "#gggggg" = false ∧
      isValidHexColor "" = false) ∧
    (∀ (s : Settings) (site v : String), isValidHexColor v = false →
      onGlobalHexInput s v = s ∧ onSiteHexInput s site v = s) := by
  refine ⟨?_, ⟨by decide, by decide, by decide, by decide, by decide, by decide, by decide⟩, ?_⟩
  · intro v
    unfold isValidHexColor
    cases hv : v.data with
    | nil =>
      simp
    | cons c rest =>
      simp only [Bool.and_eq_true, Bool.or_eq_true, beq_iff_eq, List.all_eq_true,
        decide_eq_true_eq]
      constructor
      · rintro ⟨⟨hc, hlen⟩, hall⟩
        refine ⟨rest, by rw [hc], hlen, fun ch hch => hall ch hch⟩
      · rintro ⟨rest', heq, hlen, hall⟩
        obtain ⟨hc, hr⟩ := List.cons.injEq c rest '#' rest' ▸ heq
        subst hr
        exact ⟨⟨hc, hlen⟩, fun ch hch => hall ch hch⟩
  · intro s site v h
    constructor
    · unfold onGlobalHexInput
      rw [h]
      simp
    · unfold onSiteHexInput
      rw [h]
      simp

theorem c9_witness :
    onGlobalHexInput DEFAULT_SETTINGS "#gggggg" = DEFAULT_SETTINGS ∧
    onSiteHexInput DEFAULT_SETTINGS "example.com" "#gggggg" = DEFAULT_SETTINGS :=
  c9_hex_validator_exact_and_guards_writes.2.2 DEFAULT_SETTINGS "example.com" "#gggggg"
    (by decide)

/-- Claim C2: for every tab, at most one extension style sheet governs the
`--visited-link-color` property at a time: the sheet inserted by an
apply/inject call fully displaces whatever sheet any prior apply or reset
call installed (its value is independent of the previously inserted sheets,
so repeated injections never accumulate), and after a generate-then-reset
sequence the property holds the color and then `unset`, in that order, with
nothing retained from the first sheet. -/
theorem c2_inject_replaces_and_reset_unsets (stack : List String) (c : String)
    (hc : c ≠ "") (hsc : ∀ ch ∈ c.data, ch ≠ ';') :
    activeCSSPropValue (insertCSSOp stack (generateCSS c)) = some c ∧
    activeCSSPropValue (insertCSSOp (insertCSSOp stack (generateCSS c)) resetCSS) = some "unset" ∧
    (∀ stack' : List String,
      activeCSSPropValue (insertCSSOp stack' (generateCSS c)) =
        activeCSSPropValue (insertCSSOp stack (generateCSS c))) := by
  have hg := cssPropValue_generateCSS c hc hsc
  have hr : cssPropValue resetCSS = some "unset" := by decide
  refine ⟨?_, ?_, ?_⟩
  · unfold activeCSSPropValue insertCSSOp
    rw [List.reverse_append]
    simp [List.findSome?_cons, hg]
  · unfold activeCSSPropValue insertCSSOp
    rw [List.reverse_append]
    simp [List.findSome?_cons, hr]
  · intro stack'
    unfold activeCSSPropValue insertCSSOp
    rw [List.reverse_append, List.reverse_append]
    simp [List.findSome?_cons, hg]

theorem c2_witness :
    activeCSSPropValue (insertCSSOp [] (generateCSS "#123456")) = some "#123456" ∧
    activeCSSPropValue (insertCSSOp (insertCSSOp [] (generateCSS "#123456")) resetCSS) =
      some "unset" := by
  have h := c2_inject_replaces_and_reset_unsets [] "#123456" (by decide) (by decide)
  exact ⟨h.1, h.2.1⟩

/-- Claim C4: for every URL that parses, the site-eligibility check returns
false exactly when the protocol is one of the internal/privileged schemes
(browser UI chrome:, edge:, about:; extension pages chrome-extension:,
moz-extension:; local file file:; embedded data data:) and true otherwise;
an unparsable URL is also ineligible; and when a tab's URL is ineligible the
inject operation performs no style sheet operation on that tab. -/
theorem c4_eligibility_exact_and_inject_noop :
    (∀ (url p : String), urlProtocol url = some p →
      (shouldInjectOnSite url = false ↔ p ∈ privilegedProtocols)) ∧
    (∀ url : String, urlProtocol url = none → shouldInjectOnSite url = false) ∧
    (∀ (s : Settings) (t : TabInfo) (u : String), t.url = some u →
      shouldInjectOnSite u = false → injectCSS s (some t) = []) := by
  refine ⟨?_, ?_, ?_⟩
  · intro url p hp
    unfold shouldInjectOnSite
    rw [hp]
    simp
  · intro url h
    unfold shouldInjectOnSite
    rw [h]
  · intro s t u hu hnot
    simp [injectCSS, hu, hnot]

theorem c4_witness :
    shouldInjectOnSite "chrome://settings" = false ∧
    injectCSS DEFAULT_SETTINGS (some { url := some "chrome://settings" }) = [] := by
  have h1 : urlProtocol "chrome://settings" = some "chrome:" := by decide
  have hf := (c4_eligibility_exact_and_inject_noop.1 "chrome://settings" "chrome:" h1).mpr
    (by decide)
  exact ⟨hf, c4_eligibility_exact_and_inject_noop.2.2 DEFAULT_SETTINGS
    { url := some "chrome://settings" } "chrome://settings" rfl hf⟩

end VisitedLinksMarker
